import Mathlib

/-!
Verification of the jamboree-converter notebook-to-PDF utility
(`jamboree_converter.py`) against its natural-language specification.

The development shallowly embeds the parts of the program the claims talk
about:

* the `PAGE_SIZES` table and the size/orientation resolution performed at
  the top of `convert_with_playwright_direct` (and the A4 fallback inside
  `create_custom_html_template`);
* the Plotly chart extraction and placeholder injection loop;
* the browser-side `renderPlotlyCharts` coordination script (library
  polling with the 60s ceiling, and the draw-settlement callbacks that
  count completions);
* the host-side control flow of `convert_with_playwright_direct`,
  modelled over an explicit association-list file system with an oracle
  supplying the outcomes of external effects (nbconvert, Playwright
  waits, the PDF snapshot).

External libraries (nbconvert, Playwright, the browser) are represented
by oracle fields; everything in-repo is translated directly from the
source.
-/

set_option autoImplicit false

namespace Jamboree

/-- Standard page sizes (width × height in mm), lines 22-34 of
`jamboree_converter.py`. -/
def PAGE_SIZES : List (String × Nat × Nat) :=
  [("a0", 841, 1189),
   ("a1", 594, 841),
   ("a2", 420, 594),
   ("a3", 297, 420),
   ("a4", 210, 297),
   ("a5", 148, 210),
   ("letter", 216, 279),
   ("legal", 216, 356),
   ("tabloid", 279, 432),
   ("ledger", 432, 279),
   ("case_study", 420, 1189)]

/-- Dictionary lookup `PAGE_SIZES[k]` / membership test `k in PAGE_SIZES`. -/
def lookupPageSize (k : String) : Option (Nat × Nat) :=
  (PAGE_SIZES.find? (fun e => e.1 == k)).map (fun e => e.2)

/-- Python `str.lower()` (ASCII range, which covers every string the
program compares after lowercasing). -/
def strToLower (s : String) : String := ⟨s.data.map Char.toLower⟩

/-- Python `str.upper()` (ASCII range). -/
def strToUpper (s : String) : String := ⟨s.data.map Char.toUpper⟩

/-- Size resolution at lines 252-260 of `convert_with_playwright_direct`:
look the lowercased key up in `PAGE_SIZES`; `none` models the
`print("❌ Unknown page size ..."); return False` branch; landscape
orientation swaps width and height. -/
def resolvePageDims (page_size orientation : String) : Option (Nat × Nat) :=
  match lookupPageSize (strToLower page_size) with
  | none => none
  | some (width, height) =>
      if strToLower orientation = "landscape" then some (height, width)
      else some (width, height)

/-- Dimension selection of `create_custom_html_template`, lines 40-52:
unknown keys fall back to `PAGE_SIZES['a4']` with CSS size name `A4`;
landscape swaps width and height.  Returns
`(width, height, css_size, css_orientation)`. -/
def create_custom_html_template_dims (page_size orientation : String) :
    Nat × Nat × String × String :=
  let wh_css : Nat × Nat × String :=
    match lookupPageSize (strToLower page_size) with
    | some (w, h) => (w, h, strToUpper page_size)
    | none =>
        -- `width, height = PAGE_SIZES['a4']`; the entry exists, so the
        -- KeyError branch of the Python dict index is unreachable.
        match lookupPageSize "a4" with
        | some (w, h) => (w, h, "A4")
        | none => (0, 0, "A4")
  let (width, height, css_size) := wh_css
  if strToLower orientation = "landscape" then (height, width, css_size, "landscape")
  else (width, height, css_size, "portrait")

def portraitKey : String := "portrait"

def landscapeKey : String := "landscape"

def a3Key : String := "a3"

/-- C2: for every page-size key in the `PAGE_SIZES` table, the resolved
(width, height) in millimeters equals the table entry when the
orientation is portrait, and equals the table entry with width and
height swapped when the orientation is landscape; no other
transformation is applied. -/
theorem c2_resolvePageDims_matches_table (k : String) (w h : Nat)
    (hk : (k, w, h) ∈ PAGE_SIZES) :
    resolvePageDims k portraitKey = some (w, h) ∧
    resolvePageDims k landscapeKey = some (h, w) := by
  fin_cases hk <;> exact ⟨by decide, by decide⟩

/-- Witness for C2 at the key `a3`: landscape resolves to 420mm × 297mm,
swapped from the base entry 297 × 420. -/
theorem c2_resolvePageDims_matches_table_witness :
    resolvePageDims a3Key landscapeKey = some (420, 297) :=
  (c2_resolvePageDims_matches_table a3Key 297 420 (by decide)).2

/-! ## Notebook model and chart extraction (lines 264-284) -/

/-- A mimetype → value dictionary, the `output['data']` object. -/
abbrev MimeDict := List (String × String)

def plotlyMime : String := "application/vnd.plotly.v1+json"

def textHtmlMime : String := "text/html"

/-- Dictionary lookup `d[k]` / membership test `k in d`. -/
def lookupMime (d : MimeDict) (k : String) : Option String :=
  (d.find? (fun kv => kv.1 == k)).map (fun kv => kv.2)

/-- Python dict assignment `d[k] = v`, modelled up to key order (all uses
read the dictionary back through `lookupMime`, which ignores order). -/
def setMime (d : MimeDict) (k v : String) : MimeDict :=
  (k, v) :: d.filter (fun kv => kv.1 != k)

/-- One entry of a cell's `outputs` list; `data = none` models an output
object without a `'data'` key. -/
structure Output where
  data : Option MimeDict
  deriving DecidableEq, Repr

structure Cell where
  cell_type : String
  outputs : List Output
  deriving DecidableEq, Repr

/-- The parsed notebook JSON; `notebook.get('cells', [])`. -/
structure Notebook where
  cells : List Cell
  deriving DecidableEq, Repr

/-- The deterministic placeholder id `f"jamboree-plotly-{plotly_index}"`. -/
def placeholderId (i : Nat) : String := "jamboree-plotly-" ++ toString i

/-- The placeholder markup injected as the output's `text/html`. -/
def placeholderHtml (i : Nat) : String :=
  "<div id=\"" ++ placeholderId i ++ "\" class=\"jamboree-plotly-placeholder\"></div>"

/-- Body of the inner loop at lines 274-282: if the output has a `data`
dict containing the Plotly mimetype, append its payload to
`plotly_charts`, inject a placeholder div with the current index as the
output's `text/html`, and advance `plotly_index`.  (The
`if 'data' not in output` guard in the source is unreachable: `'data' in
output` was just tested.) -/
def processOutput (plotly_index : Nat) (o : Output) : Nat × Output × List String :=
  match o.data with
  | none => (plotly_index, o, [])
  | some d =>
      match lookupMime d plotlyMime with
      | none => (plotly_index, o, [])
      | some payload =>
          (plotly_index + 1,
           ⟨some (setMime d textHtmlMime (placeholderHtml plotly_index))⟩,
           [payload])

def processOutputs (plotly_index : Nat) : List Output → Nat × List Output × List String
  | [] => (plotly_index, [], [])
  | o :: os =>
      let r1 := processOutput plotly_index o
      let r2 := processOutputs r1.1 os
      (r2.1, r1.2.1 :: r2.2.1, r1.2.2 ++ r2.2.2)

/-- The outer loop body at lines 272-273: only code cells are scanned. -/
def processCell (plotly_index : Nat) (c : Cell) : Nat × Cell × List String :=
  if c.cell_type = "code" then
    let r := processOutputs plotly_index c.outputs
    (r.1, ⟨c.cell_type, r.2.1⟩, r.2.2)
  else (plotly_index, c, [])

def processCells (plotly_index : Nat) : List Cell → Nat × List Cell × List String
  | [] => (plotly_index, [], [])
  | c :: cs =>
      let r1 := processCell plotly_index c
      let r2 := processCells r1.1 cs
      (r2.1, r1.2.1 :: r2.2.1, r1.2.2 ++ r2.2.2)

/-- Chart extraction and placeholder injection, lines 269-282: walk the
notebook's cells in document order, and within each code cell the
outputs in order; every output carrying the Plotly mimetype contributes
its payload to `plotly_charts` and receives a deterministically numbered
placeholder as its `text/html`.  Returns the mutated in-memory notebook
and the extracted payload list. -/
def extractPlotlyCharts (nb : Notebook) : Notebook × List String :=
  let r := processCells 0 nb.cells
  (⟨r.2.1⟩, r.2.2)

/-- Specification-side collector: the Plotly payload of one output, if any. -/
def plotlyPayloadOfOutput (o : Output) : Option String :=
  o.data.bind (fun d => lookupMime d plotlyMime)

/-- Specification-side collector: the Plotly payloads of a cell list in
document order (code cells only, outputs in order). -/
def plotlyPayloadsOfCells (cs : List Cell) : List String :=
  (cs.filter (fun c => c.cell_type == "code")).flatMap
    (fun c => c.outputs.filterMap plotlyPayloadOfOutput)

/-- The Plotly payloads of a notebook in document order. -/
def plotlyPayloadsInOrder (nb : Notebook) : List String :=
  plotlyPayloadsOfCells nb.cells

/-- Specification-side collector: the `text/html` representation of a
Plotly-bearing output (the injected placeholder, after extraction). -/
def injectedHtmlOfOutput (o : Output) : Option String :=
  match o.data with
  | none => none
  | some d =>
      match lookupMime d plotlyMime with
      | none => none
      | some _ => lookupMime d textHtmlMime

/-- The placeholder markup of the Plotly-bearing outputs of a cell list,
in document order. -/
def injectedHtmlsOfCells (cs : List Cell) : List String :=
  (cs.filter (fun c => c.cell_type == "code")).flatMap
    (fun c => c.outputs.filterMap injectedHtmlOfOutput)

/-- The placeholder markup of the Plotly-bearing outputs, in document
order. -/
def injectedHtmlsInOrder (nb : Notebook) : List String :=
  injectedHtmlsOfCells nb.cells

theorem lookupMime_setMime_self (d : MimeDict) (k v : String) :
    lookupMime (setMime d k v) k = some v := by
  simp [lookupMime, setMime]

theorem find?_filter_key {α : Type} (k k2 : String) (h : k2 ≠ k) :
    ∀ d : List (String × α),
    (d.filter (fun kv => kv.1 != k)).find? (fun kv => kv.1 == k2)
      = d.find? (fun kv => kv.1 == k2)
  | [] => rfl
  | a :: d => by
      by_cases ha : a.1 = k
      · have h2 : (a.1 == k2) = false :=
          beq_eq_false_iff_ne.mpr (fun hc => h (hc.symm.trans ha))
        have h3 : (a.1 != k) = false := by simp [ha]
        simp [List.filter_cons, h3, List.find?_cons, h2, find?_filter_key k k2 h d]
      · have h3 : (a.1 != k) = true := by simp [ha]
        cases hb : (a.1 == k2) <;>
          simp [List.filter_cons, h3, List.find?_cons, hb, find?_filter_key k k2 h d]

theorem lookupMime_filter_ne (d : MimeDict) (k k2 : String) (h : k2 ≠ k) :
    lookupMime (d.filter (fun kv => kv.1 != k)) k2 = lookupMime d k2 := by
  unfold lookupMime
  rw [find?_filter_key k k2 h d]

theorem lookupMime_setMime_ne (d : MimeDict) (k k2 v : String) (h : k2 ≠ k) :
    lookupMime (setMime d k v) k2 = lookupMime d k2 := by
  have h2 : ((k : String) == k2) = false :=
    beq_eq_false_iff_ne.mpr (fun hc => h hc.symm)
  simp [setMime, lookupMime, List.find?_cons, h2, find?_filter_key k k2 h d]

theorem plotlyMime_ne_textHtml : plotlyMime ≠ textHtmlMime := by decide

theorem processOutput_of_none (o : Output) (i : Nat)
    (h : plotlyPayloadOfOutput o = none) :
    processOutput i o = (i, o, []) ∧ injectedHtmlOfOutput o = none := by
  cases hd : o.data with
  | none => simp [processOutput, injectedHtmlOfOutput, hd]
  | some d =>
      have hl : lookupMime d plotlyMime = none := by
        simpa [plotlyPayloadOfOutput, hd] using h
      simp [processOutput, injectedHtmlOfOutput, hd, hl]

theorem processOutput_of_some (o : Output) (i : Nat) (p : String)
    (h : plotlyPayloadOfOutput o = some p) :
    ∃ d, o.data = some d ∧ lookupMime d plotlyMime = some p ∧
      processOutput i o
        = (i + 1, ⟨some (setMime d textHtmlMime (placeholderHtml i))⟩, [p]) := by
  cases hd : o.data with
  | none => simp [plotlyPayloadOfOutput, hd] at h
  | some d =>
      have hl : lookupMime d plotlyMime = some p := by
        simpa [plotlyPayloadOfOutput, hd] using h
      exact ⟨d, rfl, hl, by simp [processOutput, hd, hl]⟩

theorem injectedHtml_processed (d : MimeDict) (i : Nat) (p : String)
    (hp : lookupMime d plotlyMime = some p) :
    injectedHtmlOfOutput ⟨some (setMime d textHtmlMime (placeholderHtml i))⟩
      = some (placeholderHtml i) := by
  have h1 : lookupMime (setMime d textHtmlMime (placeholderHtml i)) plotlyMime
      = some p := by
    rw [lookupMime_setMime_ne _ _ _ _ plotlyMime_ne_textHtml]
    exact hp
  simp [injectedHtmlOfOutput, h1, lookupMime_setMime_self]

theorem processOutputs_spec (os : List Output) : ∀ i : Nat,
    (processOutputs i os).1 = i + (os.filterMap plotlyPayloadOfOutput).length
    ∧ (processOutputs i os).2.2 = os.filterMap plotlyPayloadOfOutput
    ∧ (processOutputs i os).2.1.filterMap injectedHtmlOfOutput
        = (List.range' i (os.filterMap plotlyPayloadOfOutput).length).map
            placeholderHtml := by
  induction os with
  | nil => intro i; simp [processOutputs]
  | cons o os ih =>
      intro i
      cases hpo : plotlyPayloadOfOutput o with
      | none =>
          obtain ⟨h1, h2⟩ := processOutput_of_none o i hpo
          obtain ⟨ia, ib, ic⟩ := ih i
          refine ⟨?_, ?_, ?_⟩
          · simpa [processOutputs, h1, List.filterMap_cons, hpo] using ia
          · simpa [processOutputs, h1, List.filterMap_cons, hpo] using ib
          · simpa [processOutputs, h1, List.filterMap_cons, hpo, h2] using ic
      | some p =>
          obtain ⟨d, hd, hlk, h1⟩ := processOutput_of_some o i p hpo
          have hinj := injectedHtml_processed d i p hlk
          obtain ⟨ia, ib, ic⟩ := ih (i + 1)
          refine ⟨?_, ?_, ?_⟩
          · simp [processOutputs, h1, List.filterMap_cons, hpo, ia]
            omega
          · simp [processOutputs, h1, List.filterMap_cons, hpo, ib]
          · simp [processOutputs, h1, List.filterMap_cons, hpo, hinj, ic,
              List.range'_succ]

theorem processCells_spec (cs : List Cell) : ∀ i : Nat,
    (processCells i cs).1 = i + (plotlyPayloadsOfCells cs).length
    ∧ (processCells i cs).2.2 = plotlyPayloadsOfCells cs
    ∧ injectedHtmlsOfCells (processCells i cs).2.1
        = (List.range' i (plotlyPayloadsOfCells cs).length).map placeholderHtml := by
  induction cs with
  | nil => intro i; simp [processCells, plotlyPayloadsOfCells, injectedHtmlsOfCells]
  | cons c cs ih =>
      intro i
      by_cases hc : c.cell_type = "code"
      · obtain ⟨oa, ob, oc⟩ := processOutputs_spec c.outputs i
        obtain ⟨ia, ib, ic⟩ := ih (i + (c.outputs.filterMap plotlyPayloadOfOutput).length)
        have hfil : (c.cell_type == "code") = true := by simp [hc]
        have hpay : plotlyPayloadsOfCells (c :: cs)
            = c.outputs.filterMap plotlyPayloadOfOutput ++ plotlyPayloadsOfCells cs := by
          simp only [plotlyPayloadsOfCells, List.filter_cons, hfil, if_pos,
            List.flatMap_cons]
        have hstep1 : (processCells i (c :: cs)).1
            = (processCells ((processOutputs i c.outputs).1) cs).1 := by
          simp [processCells, processCell, hc]
        have hstep2 : (processCells i (c :: cs)).2.2
            = (processOutputs i c.outputs).2.2
              ++ (processCells ((processOutputs i c.outputs).1) cs).2.2 := by
          simp [processCells, processCell, hc]
        have hstep3 : (processCells i (c :: cs)).2.1
            = Cell.mk c.cell_type (processOutputs i c.outputs).2.1
              :: (processCells ((processOutputs i c.outputs).1) cs).2.1 := by
          simp [processCells, processCell, hc]
        refine ⟨?_, ?_, ?_⟩
        · rw [hstep1, oa, ia, hpay]
          simp [Nat.add_assoc]
        · rw [hstep2, oa, ob, ib, hpay]
        · have hunf : ∀ (os2 : List Output) (rest : List Cell),
              injectedHtmlsOfCells (Cell.mk c.cell_type os2 :: rest)
                = os2.filterMap injectedHtmlOfOutput ++ injectedHtmlsOfCells rest := by
            intro os2 rest
            simp only [injectedHtmlsOfCells, List.filter_cons, hfil, if_pos,
              List.flatMap_cons]
          rw [hstep3, hunf, oa, oc, ic, hpay, List.length_append,
            ← List.map_append, List.range'_append_1, Nat.add_comm]
      · have hfil : (c.cell_type == "code") = false := by simp [hc]
        obtain ⟨ia, ib, ic⟩ := ih i
        refine ⟨?_, ?_, ?_⟩
        · simpa [processCells, processCell, hc, plotlyPayloadsOfCells,
            List.filter_cons, hfil] using ia
        · simpa [processCells, processCell, hc, plotlyPayloadsOfCells,
            List.filter_cons, hfil] using ib
        · simpa [processCells, processCell, hc, plotlyPayloadsOfCells,
            injectedHtmlsOfCells, List.filter_cons, hfil] using ic

/-- C3: chart extraction walks code-cell outputs in document order; the
extracted payload list equals the document-order Plotly payloads of the
notebook; the placeholders injected into the (in-memory) notebook are
exactly `jamboree-plotly-0`, `jamboree-plotly-1`, … in document order, so
the number of placeholders equals the number of extracted payloads and
the numeric suffix of the i-th placeholder is `i`, pairing it with the
i-th payload; and extraction is deterministic (it is a pure function of
the notebook, so a re-run produces the identical pairing). -/
theorem c3_extraction_pairing (nb : Notebook) :
    (extractPlotlyCharts nb).2 = plotlyPayloadsInOrder nb
    ∧ injectedHtmlsInOrder (extractPlotlyCharts nb).1
        = (List.range (extractPlotlyCharts nb).2.length).map placeholderHtml
    ∧ (injectedHtmlsInOrder (extractPlotlyCharts nb).1).length
        = (extractPlotlyCharts nb).2.length
    ∧ extractPlotlyCharts nb = extractPlotlyCharts nb := by
  obtain ⟨h1, h2, h3⟩ := processCells_spec nb.cells 0
  have e2 : (extractPlotlyCharts nb).2 = (processCells 0 nb.cells).2.2 := rfl
  have e1 : (extractPlotlyCharts nb).1 = ⟨(processCells 0 nb.cells).2.1⟩ := rfl
  refine ⟨?_, ?_, ?_, rfl⟩
  · rw [e2, h2]; rfl
  · rw [e1, e2, h2]
    show injectedHtmlsOfCells (processCells 0 nb.cells).2.1 = _
    rw [h3, List.range_eq_range']
  · rw [e1, e2, h2]
    show (injectedHtmlsOfCells (processCells 0 nb.cells).2.1).length = _
    rw [h3]
    simp

/-! ## Browser-side render coordination (`renderPlotlyCharts`, lines 371-516) -/

/-- Outcome of one settled chart draw call (`Plotly.newPlot` promise). -/
inductive DrawOutcome where
  | success
  | failure (msg : String)
  deriving DecidableEq, Repr

/-- The in-page global flags set up at lines 376-381. -/
structure RenderFlags where
  plotlyRenderedCount : Nat
  plotlyRenderingComplete : Bool
  plotlyRenderFailed : Bool
  plotlyLastError : Option String
  deriving DecidableEq, Repr

def initFlags : RenderFlags :=
  { plotlyRenderedCount := 0
    plotlyRenderingComplete := false
    plotlyRenderFailed := false
    plotlyLastError := none }

/-- The `.then` / `.catch` handlers attached to every draw call (lines
446-463 and 481-495): a settled draw — success or failure alike —
increments `plotlyRenderedCount` exactly once; a failure additionally
records `plotlyLastError` (and is not retried: each promise settles
once); when the count reaches `plotlyChartsData.length`,
`markPlotlyComplete()` sets `plotlyRenderingComplete`. -/
def onDrawSettled (total : Nat) (s : RenderFlags) (o : DrawOutcome) : RenderFlags :=
  match o with
  | DrawOutcome.success =>
      let s2 := { s with plotlyRenderedCount := s.plotlyRenderedCount + 1 }
      if s2.plotlyRenderedCount ≥ total then
        { s2 with plotlyRenderingComplete := true }
      else s2
  | DrawOutcome.failure e =>
      let s2 := { s with plotlyLastError := some e,
                         plotlyRenderedCount := s.plotlyRenderedCount + 1 }
      if s2.plotlyRenderedCount ≥ total then
        { s2 with plotlyRenderingComplete := true }
      else s2

/-- The Rendering phase: the browser event loop delivers the settlement
callbacks of the issued draw calls one at a time (in some order given by
the `outcomes` list), starting from the freshly initialised flags. -/
def runRendering (total : Nat) (outcomes : List DrawOutcome) : RenderFlags :=
  outcomes.foldl (onDrawSettled total) initFlags

/-- The message of the last failed draw in the list, if any. -/
def lastErrorOf : List DrawOutcome → Option String
  | [] => none
  | DrawOutcome.success :: rest => lastErrorOf rest
  | DrawOutcome.failure e :: rest =>
      match lastErrorOf rest with
      | some e2 => some e2
      | none => some e

theorem onDrawSettled_fields (total : Nat) (s : RenderFlags) (o : DrawOutcome) :
    (onDrawSettled total s o).plotlyRenderedCount = s.plotlyRenderedCount + 1
    ∧ ((onDrawSettled total s o).plotlyRenderingComplete = true ↔
        (s.plotlyRenderingComplete = true ∨ total ≤ s.plotlyRenderedCount + 1))
    ∧ (onDrawSettled total s o).plotlyRenderFailed = s.plotlyRenderFailed
    ∧ (onDrawSettled total s o).plotlyLastError
        = (match o with
           | DrawOutcome.success => s.plotlyLastError
           | DrawOutcome.failure e => some e) := by
  cases o <;> by_cases h : total ≤ s.plotlyRenderedCount + 1 <;>
    simp [onDrawSettled, ge_iff_le, h]

theorem runSettle_fields (total : Nat) : ∀ (os : List DrawOutcome) (s : RenderFlags),
    (os.foldl (onDrawSettled total) s).plotlyRenderedCount
        = s.plotlyRenderedCount + os.length
    ∧ ((os.foldl (onDrawSettled total) s).plotlyRenderingComplete = true ↔
        (s.plotlyRenderingComplete = true
          ∨ (os ≠ [] ∧ total ≤ s.plotlyRenderedCount + os.length)))
    ∧ (os.foldl (onDrawSettled total) s).plotlyRenderFailed = s.plotlyRenderFailed
    ∧ (os.foldl (onDrawSettled total) s).plotlyLastError
        = (match lastErrorOf os with
           | some e => some e
           | none => s.plotlyLastError)
  | [], s => by simp [lastErrorOf]
  | o :: os, s => by
      obtain ⟨h1, h2, h3, h4⟩ := onDrawSettled_fields total s o
      obtain ⟨i1, i2, i3, i4⟩ := runSettle_fields total os (onDrawSettled total s o)
      refine ⟨?_, ?_, ?_, ?_⟩
      · rw [List.foldl_cons, i1, h1]
        simp only [List.length_cons]
        omega
      · rw [List.foldl_cons, i2]
        constructor
        · rintro (hc | ⟨-, hle⟩)
          · rcases h2.mp hc with hc2 | hle2
            · exact Or.inl hc2
            · refine Or.inr ⟨by simp, ?_⟩
              simp only [List.length_cons]
              omega
          · refine Or.inr ⟨by simp, ?_⟩
            rw [h1] at hle
            simp only [List.length_cons]
            omega
        · rintro (hc | ⟨-, hle⟩)
          · exact Or.inl (h2.mpr (Or.inl hc))
          · by_cases hos : os = []
            · subst hos
              refine Or.inl (h2.mpr (Or.inr ?_))
              simp only [List.length_cons, List.length_nil] at hle
              omega
            · refine Or.inr ⟨hos, ?_⟩
              rw [h1]
              simp only [List.length_cons] at hle
              omega
      · rw [List.foldl_cons, i3, h3]
      · rw [List.foldl_cons, i4]
        cases o <;> cases hle : lastErrorOf os <;> simp [lastErrorOf, hle, h4]

/-- C4: in the Rendering phase, every issued draw call that settles —
with success or with failure — increments the completed count exactly
once, so after all `total` draws settle (in any order, with any mix of
outcomes) the count equals `total` and the Complete flag is set; the
flag is reached exactly when the count reaches `total` (after any proper
prefix of the settlements it is still unset); a failure records the last
error message but is neither retried nor able to abort the run. -/
theorem c4_rendering_completion (total : Nat) (outcomes : List DrawOutcome)
    (hlen : outcomes.length = total) (hpos : 0 < total) :
    (runRendering total outcomes).plotlyRenderedCount = total
    ∧ (runRendering total outcomes).plotlyRenderingComplete = true
    ∧ (∀ k, k < total →
        (runRendering total (outcomes.take k)).plotlyRenderingComplete = false)
    ∧ (runRendering total outcomes).plotlyLastError = lastErrorOf outcomes := by
  obtain ⟨h1, h2, _, h4⟩ := runSettle_fields total outcomes initFlags
  refine ⟨?_, ?_, ?_, ?_⟩
  · rw [runRendering, h1, hlen]
    simp [initFlags]
  · rw [runRendering]
    refine h2.mpr (Or.inr ⟨?_, ?_⟩)
    · intro hnil
      rw [hnil] at hlen
      simp at hlen
      omega
    · simp [initFlags, hlen]
  · intro k hk
    obtain ⟨-, t2, -, -⟩ := runSettle_fields total (outcomes.take k) initFlags
    have hnc : ¬ ((outcomes.take k).foldl (onDrawSettled total) initFlags).plotlyRenderingComplete = true := by
      rw [t2]
      rintro (hc | ⟨-, hle⟩)
      · simp [initFlags] at hc
      · rw [List.length_take, initFlags] at hle
        simp at hle
        omega
    simpa [runRendering] using hnc
  · rw [runRendering, h4]
    cases hle : lastErrorOf outcomes <;> simp [initFlags]

def boomMsg : String := "chart draw rejected"

def demoOutcomes : List DrawOutcome :=
  [DrawOutcome.success, DrawOutcome.failure boomMsg]

/-- Witness for C4 with two draws, the second failing: both settlements
are counted, Complete is set only after the second, and the failure is
recorded in the error channel. -/
theorem c4_rendering_completion_witness :
    (runRendering 2 demoOutcomes).plotlyRenderedCount = 2
    ∧ (runRendering 2 demoOutcomes).plotlyRenderingComplete = true
    ∧ (runRendering 2 (demoOutcomes.take 1)).plotlyRenderingComplete = false
    ∧ (runRendering 2 demoOutcomes).plotlyLastError = some boomMsg := by
  obtain ⟨h1, h2, h3, h4⟩ :=
    c4_rendering_completion 2 demoOutcomes (by decide) (by decide)
  refine ⟨h1, h2, h3 1 (by decide), ?_⟩
  rw [h4]
  decide

/-! ## Library polling (`renderPlotlyCharts` entry, lines 387-405) -/

/-- Environment of one page load: the number of extracted chart payloads
and the time (ms after `plotlyLoadStartTime`) at which the Plotly global
becomes defined, `none` if it never loads. -/
structure CoordEnv where
  total : Nat
  libReadyAt : Option Nat
  deriving DecidableEq, Repr

/-- Whether `typeof Plotly !== 'undefined'` holds at time `t`. -/
def libLoaded (env : CoordEnv) (t : Nat) : Bool :=
  match env.libReadyAt with
  | none => false
  | some r => decide (r ≤ t)

/-- What one invocation of `renderPlotlyCharts` at time `t` does.
`completeNoCharts` is the `plotlyChartsData.length === 0` early
`markPlotlyComplete()` (lines 390-393); `timedOut` is the
`(Date.now() - window.plotlyLoadStartTime) > 60000` branch that sets
`plotlyRenderFailed = true` and marks complete (lines 396-401);
`retryScheduled next` is `setTimeout(renderPlotlyCharts, 250)` (line
403); `startRendering` sets `plotlyRenderStarted` and issues the draw
calls (lines 407 onward). -/
inductive CoordResult where
  | completeNoCharts
  | timedOut
  | retryScheduled (next : Nat)
  | startRendering
  deriving DecidableEq, Repr

/-- One invocation of `renderPlotlyCharts` at time `t` (in ms;
`plotlyLoadStartTime` and the document-ready first invocation are both
taken as time 0). -/
def renderPlotlyChartsStep (env : CoordEnv) (t : Nat) : CoordResult :=
  if env.total = 0 then CoordResult.completeNoCharts
  else if libLoaded env t = false then
    if t > 60000 then CoordResult.timedOut
    else CoordResult.retryScheduled (t + 250)
  else CoordResult.startRendering

/-- The sequence of invocations driven by the `setTimeout` retry chain,
starting at time `t`, recorded as (time, action) pairs.  `fuel` bounds
the number of invocations (the real chain is finite: it stops at the
60s ceiling). -/
def coordTrace (env : CoordEnv) : Nat → Nat → List (Nat × CoordResult)
  | 0, _ => []
  | fuel + 1, t =>
      match renderPlotlyChartsStep env t with
      | CoordResult.retryScheduled next =>
          (t, CoordResult.retryScheduled next) :: coordTrace env fuel next
      | r => [(t, r)]

/-- The terminal invocation of the retry chain: its time and action. -/
def coordRun (env : CoordEnv) : Nat → Nat → Option (Nat × CoordResult)
  | 0, _ => none
  | fuel + 1, t =>
      match renderPlotlyChartsStep env t with
      | CoordResult.retryScheduled next => coordRun env fuel next
      | r => some (t, r)

/-- C5: if the notebook contains zero chart payloads, the first
invocation of `renderPlotlyCharts` (on document ready, at any time `t`)
marks rendering complete immediately: the whole invocation sequence is
the single `completeNoCharts` action, so the coordinator never schedules
a library poll (no WaitingForLibrary) and never issues a draw call (no
Rendering). -/
theorem c5_zero_charts_direct_complete (env : CoordEnv) (fuel t : Nat)
    (h0 : env.total = 0) (hfuel : 0 < fuel) :
    coordTrace env fuel t = [(t, CoordResult.completeNoCharts)] := by
  cases fuel with
  | zero => exact absurd hfuel (by omega)
  | succ n =>
      have hs : renderPlotlyChartsStep env t = CoordResult.completeNoCharts := by
        simp [renderPlotlyChartsStep, h0]
      simp [coordTrace, hs]

/-- Witness for C5: a page with zero charts and a library that loads at
5ms completes at the first invocation without polling. -/
theorem c5_zero_charts_direct_complete_witness :
    coordTrace ⟨0, some 5⟩ 1 0 = [(0, CoordResult.completeNoCharts)] :=
  c5_zero_charts_direct_complete ⟨0, some 5⟩ 1 0 rfl (by decide)

/-- C6 counterexample: with one chart and a library that never loads, the
poll at exactly the 60000ms ceiling does NOT fail — the check is strict
(`> 60000`) — it schedules another retry; the coordinator sets the
failed flag and completes only at the next poll, at 60250ms, which is
strictly later than the ceiling.  This refutes "transitions to Complete
at the ceiling, not later". -/
theorem c6_counterexample :
    renderPlotlyChartsStep ⟨1, none⟩ 60000 = CoordResult.retryScheduled 60250
    ∧ coordRun ⟨1, none⟩ 300 0 = some (60250, CoordResult.timedOut)
    ∧ ¬ (60250 ≤ 60000) := by
  refine ⟨by decide, by decide, by decide⟩

theorem coordRun_total_pos (total : Nat) (h : total ≠ 0) : ∀ fuel t,
    coordRun ⟨total, none⟩ fuel t = coordRun ⟨1, none⟩ fuel t
  | 0, _ => rfl
  | fuel + 1, t => by
      have hs : renderPlotlyChartsStep ⟨total, none⟩ t
          = renderPlotlyChartsStep ⟨1, none⟩ t := by
        simp [renderPlotlyChartsStep, h, libLoaded]
      cases hr : renderPlotlyChartsStep ⟨1, none⟩ t with
      | retryScheduled next =>
          simp only [coordRun, hs, hr]
          exact coordRun_total_pos total h fuel next
      | completeNoCharts => simp only [coordRun, hs, hr]
      | timedOut => simp only [coordRun, hs, hr]
      | startRendering => simp only [coordRun, hs, hr]

/-- C6 amended: in WaitingForLibrary with a library that never appears
(any positive chart count), the coordinator sets the failed flag and
transitions to Complete at the first poll strictly after the 60000ms
ceiling — at 60250ms for the 250ms poll chain started at 0 — that is,
within one poll interval after the ceiling, but not at the ceiling
itself; the timeout is non-fatal (it is a terminal `timedOut` action,
which marks rendering complete rather than aborting). -/
theorem c6_amended_timeout_after_ceiling (total : Nat) (h : 0 < total) :
    coordRun ⟨total, none⟩ 300 0 = some (60250, CoordResult.timedOut)
    ∧ 60000 < 60250 ∧ 60250 ≤ 60000 + 250 := by
  refine ⟨?_, by decide, by decide⟩
  rw [coordRun_total_pos total (by omega)]
  decide

/-- Witness for the amended C6 at one chart payload. -/
theorem c6_amended_timeout_after_ceiling_witness :
    coordRun ⟨1, none⟩ 300 0 = some (60250, CoordResult.timedOut)
    ∧ 60000 < 60250 ∧ 60250 ≤ 60000 + 250 :=
  c6_amended_timeout_after_ceiling 1 (by decide)

/-! ## Output-file naming (lines 209-214 and 555-560) -/

def slashChar : Char := '/'

def dotChar : Char := '.'

/-- Split a character list on a separator (used for path components). -/
def splitOnCharAux (sep : Char) : List Char → List Char → List (List Char)
  | [], acc => [acc.reverse]
  | c :: rest, acc =>
      if c = sep then acc.reverse :: splitOnCharAux sep rest []
      else splitOnCharAux sep rest (c :: acc)

/-- The last path component (`PurePath.name` for POSIX paths without a
trailing separator). -/
def pathName (s : String) : String :=
  ⟨(splitOnCharAux slashChar s.data []).getLastD s.data⟩

/-- Python `pathlib`: the name without its suffix, where a suffix exists
only when the last dot is neither the first nor the last character of
the name. -/
def pathStemList (name : List Char) : List Char :=
  match name.reverse.findIdx? (fun c => c == dotChar) with
  | none => name
  | some j =>
      if j = 0 ∨ j = name.length - 1 then name
      else name.take (name.length - 1 - j)

/-- `Path(notebook_file).stem`. -/
def pathStem (s : String) : String := ⟨pathStemList (pathName s).data⟩

/-- The `size_suffix` expression at lines 211 and 557:
`f"_{page_size}_{orientation}" if page_size != 'a4' or orientation != 'portrait' else ""`. -/
def size_suffix (page_size orientation : String) : String :=
  if page_size ≠ "a4" ∨ orientation ≠ "portrait" then
    "_" ++ page_size ++ "_" ++ orientation
  else ""

/-- Output-file naming of `convert_with_working_pagesize`, lines 209-214. -/
def working_output_file (notebook_file page_size orientation : String) :
    Option String → String
  | none =>
      pathStem notebook_file ++ "_sized" ++ size_suffix page_size orientation ++ ".pdf"
  | some f => f ++ ".pdf"

/-- Output-file naming of `convert_with_playwright_direct`, lines 555-560. -/
def playwright_output_file (notebook_file page_size orientation : String) :
    Option String → String
  | none =>
      pathStem notebook_file ++ "_playwright" ++ size_suffix page_size orientation ++ ".pdf"
  | some f => f ++ ".pdf"

/-- C10: when the caller supplies an explicit output filename, both
conversion methods append `.pdf` unconditionally (so `report.pdf`
becomes `report.pdf.pdf`); when none is supplied, the default is the
notebook stem plus the method suffix (`_sized` / `_playwright`), with
`_<size>_<orientation>` appended exactly when the request is not
a4 portrait. -/
theorem c10_output_filename (nbf ps orient f : String) :
    working_output_file nbf ps orient (some f) = f ++ ".pdf"
    ∧ playwright_output_file nbf ps orient (some f) = f ++ ".pdf"
    ∧ (ps = "a4" ∧ orient = "portrait" →
        working_output_file nbf ps orient none = pathStem nbf ++ "_sized" ++ ".pdf"
        ∧ playwright_output_file nbf ps orient none
            = pathStem nbf ++ "_playwright" ++ ".pdf")
    ∧ (¬ (ps = "a4" ∧ orient = "portrait") →
        working_output_file nbf ps orient none
          = pathStem nbf ++ "_sized" ++ ("_" ++ ps ++ "_" ++ orient) ++ ".pdf"
        ∧ playwright_output_file nbf ps orient none
          = pathStem nbf ++ "_playwright" ++ ("_" ++ ps ++ "_" ++ orient) ++ ".pdf") := by
  refine ⟨rfl, rfl, ?_, ?_⟩
  · rintro ⟨hps, hor⟩
    have hss : size_suffix ps orient = "" := by
      simp [size_suffix, hps, hor]
    constructor <;>
      simp [working_output_file, playwright_output_file, hss, String.append_empty]
  · intro hne
    have hor : ps ≠ "a4" ∨ orient ≠ "portrait" := by tauto
    have hss : size_suffix ps orient = "_" ++ ps ++ "_" ++ orient := by
      simp [size_suffix, hor]
    constructor <;>
      simp [working_output_file, playwright_output_file, hss, String.append_assoc]

def a4Key : String := "a4"

def reportIpynb : String := "report.ipynb"

def reportPdfPdf : String := "report.pdf.pdf"

def reportA3Landscape : String := "report_playwright_a3_landscape.pdf"

def reportPdf : String := "report.pdf"

/-- Witness for C10: an explicit output name `report.pdf` yields
`report.pdf.pdf`, and a default-named a3 landscape conversion yields
`report_playwright_a3_landscape.pdf`. -/
theorem c10_output_filename_witness :
    working_output_file reportIpynb a4Key portraitKey (some reportPdf)
        = reportPdfPdf
    ∧ playwright_output_file reportIpynb a3Key landscapeKey none
        = reportA3Landscape := by
  obtain ⟨h1, -, -, -⟩ := c10_output_filename reportIpynb a4Key portraitKey reportPdf
  obtain ⟨-, -, -, h4⟩ := c10_output_filename reportIpynb a3Key landscapeKey reportPdf
  refine ⟨?_, ?_⟩
  · rw [h1]
    decide
  · rw [(h4 (by decide)).2]
    decide

/-! ## Host-side control flow of `convert_with_playwright_direct`
(lines 243-653), over a file-system model with an oracle for external
effects -/

/-- Substring containment on character lists (for the math-markup regex
test). -/
def hasSubList (pat : List Char) : List Char → Bool
  | [] => pat.isEmpty
  | c :: rest => pat.isPrefixOf (c :: rest) || hasSubList pat rest

def mathPat1 : String := "\\("

def mathPat2 : String := "\\["

def mathPat3 : String := "$$"

def mathPat4 : String := "\\begin\x7b"

/-- The math-markup detection at line 322: the regex search for one of
the LaTeX delimiters. -/
def hasMathMarkup (s : String) : Bool :=
  hasSubList mathPat1.data s.data || hasSubList mathPat2.data s.data
    || hasSubList mathPat3.data s.data || hasSubList mathPat4.data s.data

/-- Information content of the rendered HTML document (`html_with_css`,
lines 322-541): the exporter's body with the page CSS and the embedded
chart data injected into its head.  The CSS/JS text itself is not
re-modelled; the record keeps the data that parametrises it. -/
structure PageDoc where
  body : String
  width : Nat
  height : Nat
  margins : String
  charts : List String
  withMathJax : Bool
  deriving DecidableEq, Repr

/-- Contents of one file in the model. -/
inductive FileData where
  | notebookFile (nb : Notebook)
  | htmlFile (doc : PageDoc)
  | pdfFile (width height : Nat) (margins : String)
  deriving DecidableEq, Repr

/-- The file system: an association list from path to contents. -/
abbrev FS := List (String × FileData)

def fsRead (fs : FS) (p : String) : Option FileData :=
  (fs.find? (fun e => e.1 == p)).map (fun e => e.2)

def fsErase (fs : FS) (p : String) : FS :=
  fs.filter (fun e => e.1 != p)

def fsWrite (fs : FS) (p : String) (d : FileData) : FS :=
  (p, d) :: fsErase fs p

/-- Observable reporting events of one conversion run, in order. -/
inductive Event where
  | importErrorReported
  | unknownSizeReported
  | debugHtmlSaved (path : String)
  | plotlyTimeoutWarned
  | mathjaxWarned
  | pdfCommandIssued (path : String) (width height : Nat)
  | createdReported (path : String)
  | conversionFailedReported
  deriving DecidableEq, Repr

/-- Outcomes of the external effects of one run: module import,
environment flag, `tempfile` naming, the nbconvert HTML export, and the
Playwright waits and snapshot.  The export is modelled as a total
function of the (placeholder-injected) notebook. -/
structure Oracle where
  importOk : Bool
  debugEnv : Bool
  tempNbPath : String
  tempHtmlPath : String
  exportHtml : Notebook → String
  plotlyWaitTimeout : Bool
  completeWaitTimeout : Bool
  mathjaxWaitTimeout : Bool
  pdfOk : Bool

structure ConvResult where
  fs : FS
  ret : Bool
  trace : List Event
  deriving Repr

/-- Warnings of the wait block at lines 578-604: the two Plotly waits
run only when charts were extracted and share one try/except that
prints one warning; the MathJax wait runs only when math markup was
detected and prints its own warning on failure.  Either way control
falls through. -/
def waitEvents (o : Oracle) (chartCount : Nat) (has_math : Bool) : List Event :=
  (if 0 < chartCount ∧ (o.plotlyWaitTimeout = true ∨ o.completeWaitTimeout = true)
   then [Event.plotlyTimeoutWarned] else [])
  ++ (if has_math = true ∧ o.mathjaxWaitTimeout = true
      then [Event.mathjaxWarned] else [])

/-- Control-flow model of `convert_with_playwright_direct` (lines
243-653).  External effects come from the oracle; in-repo logic — size
resolution, chart extraction, debug copy, file naming, wait handling and
the cleanup order of the `finally` blocks — is translated from the
source.  `ret` is the function's boolean result. -/
def convert_with_playwright_direct (o : Oracle) (fs : FS)
    (notebook_file page_size orientation margins : String)
    (output_file : Option String) : ConvResult :=
  -- `from playwright.sync_api import sync_playwright` (line 248); on
  -- ImportError the handler at line 648 reports and returns False.
  if o.importOk = false then
    ⟨fs, false, [Event.importErrorReported]⟩
  else
    -- lines 252-260: unknown key reports and returns False
    match resolvePageDims page_size orientation with
    | none => ⟨fs, false, [Event.unknownSizeReported]⟩
    | some (width, height) =>
        -- lines 264-267: `json.load` of the source notebook (read only);
        -- a failure raises and is caught by the handler at line 651.
        match fsRead fs notebook_file with
        | some (FileData.notebookFile nb) =>
            -- lines 269-284: extraction mutates the in-memory copy only
            let ec := extractPlotlyCharts nb
            -- lines 307-320: dump the mutated copy to a temp .ipynb,
            -- export that file to HTML, unlink the temp copy
            let fs1 := fsWrite fs o.tempNbPath (FileData.notebookFile ec.1)
            let html_body := o.exportHtml ec.1
            let fs2 := fsErase fs1 o.tempNbPath
            -- line 322
            let has_math := hasMathMarkup html_body
            -- lines 325-541: page CSS and chart data/script injection
            let doc : PageDoc := ⟨html_body, width, height, margins, ec.2, has_math⟩
            -- lines 543-548: optional debug copy of the rendered document
            let debug_html := if o.debugEnv = true then
                some (pathStem notebook_file ++ "_debug.html") else none
            let fs3 := match debug_html with
              | some p => fsWrite fs2 p (FileData.htmlFile doc)
              | none => fs2
            let tr0 := match debug_html with
              | some p => [Event.debugHtmlSaved p]
              | none => []
            -- lines 550-552: the temp .html the browser renders
            let fs4 := fsWrite fs3 o.tempHtmlPath (FileData.htmlFile doc)
            -- lines 555-560
            let out := playwright_output_file notebook_file page_size orientation output_file
            -- lines 564-604: browser session; wait timeouts only warn
            let tr1 := waitEvents o ec.2.length has_math
            -- lines 606-619: `page.pdf` is reached on every wait outcome;
            -- on failure its exception propagates to the handler at line
            -- 651 after the `finally` blocks (lines 637-646) run
            if o.pdfOk = true then
              let fs5 := fsWrite fs4 out (FileData.pdfFile width height margins)
              let fs6 := fsErase fs5 o.tempHtmlPath
              let fs7 := match debug_html with
                | some p => fsErase fs6 p
                | none => fs6
              ⟨fs7, true,
               tr0 ++ tr1 ++ [Event.pdfCommandIssued out width height,
                              Event.createdReported out]⟩
            else
              let fs5 := fsErase fs4 o.tempHtmlPath
              let fs6 := match debug_html with
                | some p => fsErase fs5 p
                | none => fs5
              ⟨fs6, false,
               tr0 ++ tr1 ++ [Event.pdfCommandIssued out width height,
                              Event.conversionFailedReported]⟩
        | _ => ⟨fs, false, [Event.conversionFailedReported]⟩

theorem fsRead_write_self (fs : FS) (p : String) (d : FileData) :
    fsRead (fsWrite fs p d) p = some d := by
  simp [fsRead, fsWrite, fsErase]

theorem fsRead_write_ne (fs : FS) (p q : String) (d : FileData) (h : q ≠ p) :
    fsRead (fsWrite fs p d) q = fsRead fs q := by
  have h2 : ((p : String) == q) = false :=
    beq_eq_false_iff_ne.mpr (fun hc => h hc.symm)
  simp [fsWrite, fsErase, fsRead, List.find?_cons, h2, find?_filter_key p q h fs]

theorem fsRead_erase_ne (fs : FS) (p q : String) (h : q ≠ p) :
    fsRead (fsErase fs p) q = fsRead fs q := by
  unfold fsRead fsErase
  rw [find?_filter_key p q h fs]

/-! ## String-suffix facts used to separate the file paths -/

/-- Python `str.endswith`. -/
def endsWithStr (s suf : String) : Bool := suf.data.isSuffixOf s.data

theorem data_append (a b : String) : (a ++ b).data = a.data ++ b.data := rfl

theorem endsWithStr_iff (s suf : String) :
    endsWithStr s suf = true ↔ suf.data <:+ s.data := by
  simp [endsWithStr, List.isSuffixOf_iff_suffix]

theorem endsWithStr_append (a suf : String) :
    endsWithStr (a ++ suf) suf = true := by
  rw [endsWithStr_iff, data_append]
  exact List.suffix_append a.data suf.data

theorem endsWithStr_append_of (a b suf : String)
    (h : endsWithStr b suf = true) : endsWithStr (a ++ b) suf = true := by
  rw [endsWithStr_iff] at h ⊢
  rw [data_append]
  exact h.trans (List.suffix_append a.data b.data)

theorem ne_of_suffix_distinct (a b sufa sufb : String)
    (ha : endsWithStr a sufa = true) (hb : endsWithStr b sufb = true)
    (h1 : ¬ sufa.data <:+ sufb.data) (h2 : ¬ sufb.data <:+ sufa.data) :
    a ≠ b := by
  intro he
  rw [endsWithStr_iff] at ha hb
  rw [he] at ha
  rcases List.suffix_or_suffix_of_suffix ha hb with hc | hc
  · exact h1 hc
  · exact h2 hc

def pdfExt : String := ".pdf"

def ipynbExt : String := ".ipynb"

def htmlExt : String := ".html"

theorem ipynb_ne_pdf (a b : String) (ha : endsWithStr a ipynbExt = true)
    (hb : endsWithStr b pdfExt = true) : a ≠ b :=
  ne_of_suffix_distinct a b ipynbExt pdfExt ha hb (by decide) (by decide)

theorem ipynb_ne_html (a b : String) (ha : endsWithStr a ipynbExt = true)
    (hb : endsWithStr b htmlExt = true) : a ≠ b :=
  ne_of_suffix_distinct a b ipynbExt htmlExt ha hb (by decide) (by decide)

theorem playwright_output_endsWith_pdf (nbf ps orient : String)
    (out : Option String) :
    endsWithStr (playwright_output_file nbf ps orient out) pdfExt = true := by
  cases out with
  | none => exact endsWithStr_append _ _
  | some f => exact endsWithStr_append _ _

theorem debugPath_endsWith_html (nbf : String) :
    endsWithStr (pathStem nbf ++ "_debug.html") htmlExt = true :=
  endsWithStr_append_of _ _ _ (by decide)

/-! ## Demonstration fixtures -/

def nbPath : String := "nb.ipynb"

def marginsDemo : String := "20mm"

def b5Key : String := "b5"

def chartPayloadDemo : String := "chart-payload-0"

def demoNotebook : Notebook :=
  ⟨[⟨"code", [⟨some [(plotlyMime, chartPayloadDemo)]⟩]⟩, ⟨"markdown", []⟩]⟩

def exportedBody : String := "<html><head></head><body>exported</body></html>"

def tempNbDemo : String := "/tmp/tmp123.ipynb"

def tempHtmlDemo : String := "/tmp/tmp456.html"

def demoOracle : Oracle :=
  { importOk := true
    debugEnv := false
    tempNbPath := tempNbDemo
    tempHtmlPath := tempHtmlDemo
    exportHtml := fun _ => exportedBody
    plotlyWaitTimeout := false
    completeWaitTimeout := false
    mathjaxWaitTimeout := false
    pdfOk := true }

def demoFs : FS := [(nbPath, FileData.notebookFile demoNotebook)]

def demoOracleDebug : Oracle := { demoOracle with debugEnv := true }

def demoOracleT : Oracle := { demoOracle with plotlyWaitTimeout := true }

def debugPathDemo : String := "nb_debug.html"

/-- C1 counterexample: an unknown page-size key (`b5`) given to the
conversion function `convert_with_playwright_direct` does not fall back
to A4 and proceed — the function reports the unknown size and returns
failure.  This refutes "an unknown page-size key is never fatal and
never causes the conversion function to report failure". -/
theorem c1_counterexample :
    (convert_with_playwright_direct demoOracle demoFs nbPath b5Key
        portraitKey marginsDemo none).ret = false
    ∧ Event.unknownSizeReported
        ∈ (convert_with_playwright_direct demoOracle demoFs nbPath b5Key
            portraitKey marginsDemo none).trace := by
  exact ⟨by decide, by decide⟩

/-- C1 amended: an unknown page-size key is fatal to
`convert_with_playwright_direct`: for every oracle, file system and
argument vector whose lowercased size key is not in the table, the
function reports the unknown size and returns failure, touching nothing
on disk; only the template helper `create_custom_html_template` falls
back (silently) to the A4 dimensions 210 × 297 (swapped for
landscape). -/
theorem c1_amended_unknown_size_fatal (o : Oracle) (fs : FS)
    (nbf ps orient mg : String) (out : Option String)
    (himp : o.importOk = true)
    (h : lookupPageSize (strToLower ps) = none) :
    (convert_with_playwright_direct o fs nbf ps orient mg out).ret = false
    ∧ (convert_with_playwright_direct o fs nbf ps orient mg out).trace
        = [Event.unknownSizeReported]
    ∧ (convert_with_playwright_direct o fs nbf ps orient mg out).fs = fs
    ∧ (create_custom_html_template_dims ps orient).1
        = (if strToLower orient = "landscape" then 297 else 210)
    ∧ (create_custom_html_template_dims ps orient).2.1
        = (if strToLower orient = "landscape" then 210 else 297) := by
  have hr : resolvePageDims ps orient = none := by
    simp [resolvePageDims, h]
  have ha4 : lookupPageSize "a4" = some (210, 297) := by decide
  refine ⟨?_, ?_, ?_, ?_, ?_⟩ <;>
    by_cases hl : strToLower orient = "landscape" <;>
      simp [convert_with_playwright_direct, himp, hr,
        create_custom_html_template_dims, h, ha4, hl]

/-- Witness for the amended C1 at the key `b5`. -/
theorem c1_amended_unknown_size_fatal_witness :
    (convert_with_playwright_direct demoOracle demoFs nbPath b5Key
        portraitKey marginsDemo none).ret = false
    ∧ (convert_with_playwright_direct demoOracle demoFs nbPath b5Key
        portraitKey marginsDemo none).trace = [Event.unknownSizeReported]
    ∧ (create_custom_html_template_dims b5Key portraitKey).1 = 210
    ∧ (create_custom_html_template_dims b5Key portraitKey).2.1 = 297 := by
  obtain ⟨h1, h2, h3, h4, h5⟩ :=
    c1_amended_unknown_size_fatal demoOracle demoFs nbPath b5Key portraitKey
      marginsDemo none rfl (by decide)
  refine ⟨h1, h2, ?_, ?_⟩
  · rw [h4]
    decide
  · rw [h5]
    decide

/-- C7: any timeout in the host-side waits — the Plotly-symbol wait, the
completion-flag wait, or the MathJax wait — is caught by its try/except,
logged as a warning, and never aborts the conversion: for every
combination of wait timeouts, control reaches the `page.pdf` snapshot
command and (the snapshot itself succeeding) the function returns
success; a timeout in those waits alone can never make the conversion
report failure. -/
theorem c7_wait_timeouts_never_abort (o : Oracle) (fs : FS)
    (nbf ps orient mg : String) (out : Option String) (nb : Notebook)
    (w ht : Nat)
    (himp : o.importOk = true)
    (hsz : resolvePageDims ps orient = some (w, ht))
    (hnb : fsRead fs nbf = some (FileData.notebookFile nb))
    (hpdf : o.pdfOk = true) :
    (convert_with_playwright_direct o fs nbf ps orient mg out).ret = true
    ∧ Event.pdfCommandIssued (playwright_output_file nbf ps orient out) w ht
        ∈ (convert_with_playwright_direct o fs nbf ps orient mg out).trace
    ∧ (0 < (extractPlotlyCharts nb).2.length →
        o.plotlyWaitTimeout = true ∨ o.completeWaitTimeout = true →
        Event.plotlyTimeoutWarned
          ∈ (convert_with_playwright_direct o fs nbf ps orient mg out).trace)
    ∧ (hasMathMarkup (o.exportHtml (extractPlotlyCharts nb).1) = true →
        o.mathjaxWaitTimeout = true →
        Event.mathjaxWarned
          ∈ (convert_with_playwright_direct o fs nbf ps orient mg out).trace) := by
  refine ⟨?_, ?_, ?_, ?_⟩
  · cases hdbg : o.debugEnv <;>
      simp [convert_with_playwright_direct, himp, hsz, hnb, hpdf, hdbg]
  · cases hdbg : o.debugEnv <;>
      simp [convert_with_playwright_direct, himp, hsz, hnb, hpdf, hdbg]
  · intro hc hw
    cases hdbg : o.debugEnv <;>
      simp [convert_with_playwright_direct, himp, hsz, hnb, hpdf, hdbg,
        waitEvents, hc, hw]
  · intro hm hw
    cases hdbg : o.debugEnv <;>
      simp [convert_with_playwright_direct, himp, hsz, hnb, hpdf, hdbg,
        waitEvents, hm, hw]

/-- Witness for C7: with the Plotly-symbol wait timing out, the demo
conversion still issues the snapshot, returns success, and logs the
warning. -/
theorem c7_wait_timeouts_never_abort_witness :
    (convert_with_playwright_direct demoOracleT demoFs nbPath a4Key
        portraitKey marginsDemo none).ret = true
    ∧ Event.pdfCommandIssued
        (playwright_output_file nbPath a4Key portraitKey none) 210 297
        ∈ (convert_with_playwright_direct demoOracleT demoFs nbPath a4Key
            portraitKey marginsDemo none).trace
    ∧ Event.plotlyTimeoutWarned
        ∈ (convert_with_playwright_direct demoOracleT demoFs nbPath a4Key
            portraitKey marginsDemo none).trace := by
  obtain ⟨r1, r2, r3, -⟩ :=
    c7_wait_timeouts_never_abort demoOracleT demoFs nbPath a4Key portraitKey
      marginsDemo none demoNotebook 210 297 rfl (by decide) (by decide) rfl
  exact ⟨r1, r2, r3 (by decide) (Or.inl rfl)⟩

/-- C8 (the claim fails on the code): with the debug environment flag
set, the run does write and announce the intermediate rendered document
(`nb_debug.html`), but the `finally` cleanup at lines 642-646 deletes it
before the function returns, so it does NOT still exist on disk
afterwards — contradicting the code's own "Debug HTML saved" report and
the documented purpose of the debug mode. -/
theorem c8_debug_html_deleted :
    Event.debugHtmlSaved debugPathDemo
        ∈ (convert_with_playwright_direct demoOracleDebug demoFs nbPath a4Key
            portraitKey marginsDemo none).trace
    ∧ (convert_with_playwright_direct demoOracleDebug demoFs nbPath a4Key
        portraitKey marginsDemo none).ret = true
    ∧ fsRead (convert_with_playwright_direct demoOracleDebug demoFs nbPath
        a4Key portraitKey marginsDemo none).fs debugPathDemo = none := by
  exact ⟨by decide, by decide, by decide⟩

/-- C9: the input notebook file is never modified: on every exit path of
`convert_with_playwright_direct` — import failure, unknown size, snapshot
failure or success, debug mode on or off — the source `.ipynb` entry of
the file system is untouched (placeholder injection mutates only the
in-memory copy, which goes to a fresh temporary file). -/
theorem c9_source_notebook_preserved (o : Oracle) (fs : FS)
    (nbf ps orient mg : String) (out : Option String) (nb : Notebook)
    (hnb : fsRead fs nbf = some (FileData.notebookFile nb))
    (hext : endsWithStr nbf ipynbExt = true)
    (htnb : fsRead fs o.tempNbPath = none)
    (hthtml : fsRead fs o.tempHtmlPath = none) :
    fsRead (convert_with_playwright_direct o fs nbf ps orient mg out).fs nbf
      = some (FileData.notebookFile nb) := by
  have h1 : nbf ≠ o.tempNbPath := by
    intro he
    rw [he, htnb] at hnb
    cases hnb
  have h2 : nbf ≠ o.tempHtmlPath := by
    intro he
    rw [he, hthtml] at hnb
    cases hnb
  have h3 : nbf ≠ playwright_output_file nbf ps orient out :=
    ipynb_ne_pdf _ _ hext (playwright_output_endsWith_pdf nbf ps orient out)
  have h4 : nbf ≠ pathStem nbf ++ "_debug.html" :=
    ipynb_ne_html _ _ hext (debugPath_endsWith_html nbf)
  have w1 : ∀ (g : FS) (d : FileData),
      fsRead (fsWrite g o.tempNbPath d) nbf = fsRead g nbf :=
    fun g d => fsRead_write_ne g o.tempNbPath nbf d h1
  have e1 : ∀ g : FS, fsRead (fsErase g o.tempNbPath) nbf = fsRead g nbf :=
    fun g => fsRead_erase_ne g o.tempNbPath nbf h1
  have w2 : ∀ (g : FS) (d : FileData),
      fsRead (fsWrite g o.tempHtmlPath d) nbf = fsRead g nbf :=
    fun g d => fsRead_write_ne g o.tempHtmlPath nbf d h2
  have e2 : ∀ g : FS, fsRead (fsErase g o.tempHtmlPath) nbf = fsRead g nbf :=
    fun g => fsRead_erase_ne g o.tempHtmlPath nbf h2
  have w3 : ∀ (g : FS) (d : FileData),
      fsRead (fsWrite g (playwright_output_file nbf ps orient out) d) nbf
        = fsRead g nbf :=
    fun g d => fsRead_write_ne g _ nbf d h3
  have w4 : ∀ (g : FS) (d : FileData),
      fsRead (fsWrite g (pathStem nbf ++ "_debug.html") d) nbf = fsRead g nbf :=
    fun g d => fsRead_write_ne g _ nbf d h4
  have e4 : ∀ g : FS,
      fsRead (fsErase g (pathStem nbf ++ "_debug.html")) nbf = fsRead g nbf :=
    fun g => fsRead_erase_ne g _ nbf h4
  cases himp : o.importOk with
  | false => simp [convert_with_playwright_direct, himp, hnb]
  | true =>
      cases hsz : resolvePageDims ps orient with
      | none => simp [convert_with_playwright_direct, himp, hsz, hnb]
      | some wh =>
          obtain ⟨w, ht⟩ := wh
          cases hdbg : o.debugEnv <;> cases hpdf : o.pdfOk <;>
            simp [convert_with_playwright_direct, himp, hsz, hnb, hdbg, hpdf,
              w1, e1, w2, e2, w3, w4, e4]

/-- Witness for C9 with the debug mode on (the most file-active path). -/
theorem c9_source_notebook_preserved_witness :
    fsRead (convert_with_playwright_direct demoOracleDebug demoFs nbPath
        a4Key portraitKey marginsDemo none).fs nbPath
      = some (FileData.notebookFile demoNotebook) :=
  c9_source_notebook_preserved demoOracleDebug demoFs nbPath a4Key
    portraitKey marginsDemo none demoNotebook (by decide) (by decide)
    (by decide) (by decide)

end Jamboree
